import Mathlib

/-
Verification of the Forge generation-pipeline orchestrator.

Shallow embedding, translated from the TypeScript sources:
 - src/services/geminiService.ts  (the service functions, the React App with
   ProjectProvider: initialState, addResearch, updateIdea, generateArtifact,
   resetProject, the debounced autosave effect, and the per-stage UI buttons)
 - src/unnamed/part_001            (generateContentWithRetry, loadProject)

Machine strings are embedded as Lean String where only equality matters and as
List Char where character-level operations (data-URL splitting, base64) occur.
-/

namespace Forge

/-- Embeds the ProjectStep enum used throughout the App
(values IDEA, RESEARCH, PRD, PLANNING, DESIGN, CODE). -/
inductive ProjectStep where
  | IDEA
  | RESEARCH
  | PRD
  | PLANNING
  | DESIGN
  | CODE
deriving DecidableEq, Repr

/-- Embeds the provenance tag of a research document (source: 'upload' in
addResearch; the type also admits an externally supplied tag). -/
inductive DocSource where
  | upload
  | external
deriving DecidableEq, Repr

/-- Embeds ResearchDocument: id, display name, content (raw text or base64
payload, kept as a character list), media-type tag and provenance tag. -/
structure ResearchDocument where
  id : String
  name : String
  content : List Char
  mimeType : List Char
  source : DocSource
deriving DecidableEq, Repr

/-- Embeds ProjectState as initialised at geminiService.ts lines 283-294:
title, current stage marker, research list, raw idea input, one output slot
per stage and the transient in-progress flag. -/
structure ProjectState where
  title : String
  currentStep : ProjectStep
  research : List ResearchDocument
  ideaInput : String
  synthesizedIdea : String
  prdOutput : String
  roadmapOutput : String
  designSystemOutput : String
  codePromptOutput : String
  isGenerating : Bool
deriving DecidableEq, Repr

/-- Embeds initialState (geminiService.ts lines 283-294). -/
def initialState : ProjectState where
  title := "Untitled Project"
  currentStep := ProjectStep.IDEA
  research := []
  ideaInput := ""
  synthesizedIdea := ""
  prdOutput := ""
  roadmapOutput := ""
  designSystemOutput := ""
  codePromptOutput := ""
  isGenerating := false

/-- Embeds updateIdea (geminiService.ts lines 1034-1036). -/
def updateIdea (idea : String) (s : ProjectState) : ProjectState :=
  { s with ideaInput := idea }

/-- Embeds the state transform of resetProject when the confirm dialog is
accepted (geminiService.ts lines 1068-1074): spread of initialState keeping
only the current title. -/
def resetProjectState (s : ProjectState) : ProjectState :=
  { initialState with title := s.title }

/-- Embeds the provider-level state around ProjectState: the React state pair
of the project state and the currentProjectId identifier used as persistence
key (geminiService.ts lines 894-897). -/
structure ProviderState where
  proj : ProjectState
  currentProjectId : Option String
deriving DecidableEq, Repr

/-- Embeds resetProject (geminiService.ts lines 1068-1074): gated on the
confirm dialog, resets the project state content, does not touch
currentProjectId. -/
def resetProject (confirmed : Bool) (p : ProviderState) : ProviderState :=
  if confirmed then { p with proj := resetProjectState p.proj } else p

/-- Embeds the error value thrown by a failing service call (the generation
path throws ordinary Error objects; only identity matters here). -/
structure GenError where
  msg : String
deriving DecidableEq, Repr

/-- Describes one backend generation call made by generateArtifact, together
with the arguments taken from the closure state, one constructor per
GeminiService function invoked (geminiService.ts lines 1041-1059). -/
inductive BackendCall where
  | refineIdea (rawInput : String)
  | generatePRD (idea : String) (research : List ResearchDocument)
  | generatePlan (prd : String)
  | generateDesignSystem (prd : String) (plan : String)
  | generateCodePrompt (s : ProjectState)
deriving DecidableEq, Repr

/-- Computes which service call generateArtifact makes for a stage, from the
closure state (geminiService.ts lines 1041-1059).  The RESEARCH stage has no
branch in the source and makes no call.  For PRD the idea argument is
`state.synthesizedIdea || state.ideaInput` (JS falsy fallback on the empty
string). -/
def stageCall (step : ProjectStep) (s : ProjectState) : Option BackendCall :=
  match step with
  | ProjectStep.IDEA => some (BackendCall.refineIdea s.ideaInput)
  | ProjectStep.RESEARCH => none
  | ProjectStep.PRD =>
      some (BackendCall.generatePRD
        (if s.synthesizedIdea = "" then s.ideaInput else s.synthesizedIdea)
        s.research)
  | ProjectStep.PLANNING => some (BackendCall.generatePlan s.prdOutput)
  | ProjectStep.DESIGN =>
      some (BackendCall.generateDesignSystem s.prdOutput s.roadmapOutput)
  | ProjectStep.CODE => some (BackendCall.generateCodePrompt s)

/-- Writes a successful generation result into the output slot of the given
stage, exactly the setState update of each branch (geminiService.ts lines
1041-1059). -/
def writeSlot (step : ProjectStep) (result : String) (s : ProjectState) : ProjectState :=
  match step with
  | ProjectStep.IDEA => { s with synthesizedIdea := result }
  | ProjectStep.RESEARCH => s
  | ProjectStep.PRD => { s with prdOutput := result }
  | ProjectStep.PLANNING => { s with roadmapOutput := result }
  | ProjectStep.DESIGN => { s with designSystemOutput := result }
  | ProjectStep.CODE => { s with codePromptOutput := result }

/-- Records one run of generateArtifact: the backend calls made, the state
after the finally block, the error propagated to the awaiting caller (none
when the promise resolves normally) and whether the alert dialog was shown. -/
structure GenRun where
  calls : List BackendCall
  finalState : ProjectState
  thrown : Option GenError
  alerted : Bool
deriving Repr

/-- Embeds generateArtifact (geminiService.ts lines 1038-1066).  The backend
parameter scripts the outcome of each service call.  The function sets the
in-progress flag, dispatches on the stage, on success writes the stage slot,
on any caught error logs and shows an alert (the catch block rethrows
nothing), and in the finally block clears the in-progress flag. -/
def generateArtifact (backend : BackendCall → Except GenError String)
    (step : ProjectStep) (s : ProjectState) : GenRun :=
  match stageCall step s with
  | none =>
      { calls := [], finalState := { s with isGenerating := false },
        thrown := none, alerted := false }
  | some c =>
      match backend c with
      | Except.ok text =>
          { calls := [c],
            finalState := { writeSlot step text s with isGenerating := false },
            thrown := none, alerted := false }
      | Except.error _ =>
          { calls := [c], finalState := { s with isGenerating := false },
            thrown := none, alerted := true }

/-- Reads off the output slot of the stage that the claims designate as the
prerequisite of a stage: PRD requires the synthesized idea, Planning the PRD,
Design the roadmap, Code the design blueprint. -/
def prereqOutput (step : ProjectStep) (s : ProjectState) : String :=
  match step with
  | ProjectStep.PRD => s.synthesizedIdea
  | ProjectStep.PLANNING => s.prdOutput
  | ProjectStep.DESIGN => s.roadmapOutput
  | ProjectStep.CODE => s.designSystemOutput
  | _ => ""

/-- Embeds the disabled condition of each stage-trigger button in the App
pages: Idea (line 427), PRD (line 588, in-progress only), Planning (line
652), Design (line 699) and Code (line 752).  The Research page has no
generation trigger. -/
def stageTriggerDisabled (step : ProjectStep) (s : ProjectState) : Bool :=
  match step with
  | ProjectStep.IDEA => (s.ideaInput.trim == "") || s.isGenerating
  | ProjectStep.RESEARCH => false
  | ProjectStep.PRD => s.isGenerating
  | ProjectStep.PLANNING => s.isGenerating || (s.prdOutput == "")
  | ProjectStep.DESIGN => s.isGenerating || (s.roadmapOutput == "")
  | ProjectStep.CODE => s.isGenerating || (s.designSystemOutput == "")

/-- Embeds the error value inspected by the retry wrapper: message text plus
the optional status and code fields read by the rate-limit test
(src/unnamed/part_001 line 74). -/
structure ApiError where
  message : List Char
  status : Option Nat
  code : Option Nat
deriving DecidableEq, Repr

/-- Embeds the JS String.includes test: the pattern occurs as a contiguous
substring of the character list. -/
def hasSubstr (pat : List Char) : List Char → Bool
  | [] => pat == []
  | c :: rest => pat.isPrefixOf (c :: rest) || hasSubstr pat rest

/-- Embeds the isRateLimit classification of src/unnamed/part_001 line 74:
message contains the substring 429, or status or code equals 429. -/
def isRateLimit (e : ApiError) : Bool :=
  hasSubstr "429".toList e.message || e.status == some 429 || e.code == some 429

/-- Distinguishes the two failure exits of generateContentWithRetry: a
rethrown backend error (line 82) and the terminal Error with message Max
retries exceeded after the loop (line 86), the error the spec names
GenerationExhaustedError. -/
inductive RetryFailure where
  | api (e : ApiError)
  | maxRetriesExceeded
deriving DecidableEq, Repr

deriving instance DecidableEq for Except

/-- Records one run of generateContentWithRetry: how many backend calls were
made, the backoff delays awaited between consecutive calls (milliseconds,
in order), and the overall outcome. -/
structure RetryRes where
  calls : Nat
  waits : List Nat
  result : Except RetryFailure String
deriving DecidableEq, Repr

/-- Embeds the while loop of generateContentWithRetry (src/unnamed/part_001
lines 62-85).  The fuel argument equals maxRetries minus attempt, so fuel
zero is exactly the loop guard attempt < maxRetries failing, which falls
through to the Max-retries-exceeded throw at line 86.  Each iteration calls
the backend at the current attempt index; on success it returns, on a
rate-limit error with attempt < maxRetries - 1 it waits 2 to the attempt
times 1000 ms and retries, otherwise it rethrows the error. -/
def retryGo (backend : Nat → Except ApiError String) (maxRetries : Nat) :
    Nat → Nat → RetryRes
  | _, 0 => { calls := 0, waits := [], result := Except.error RetryFailure.maxRetriesExceeded }
  | attempt, fuel + 1 =>
      match backend attempt with
      | Except.ok response => { calls := 1, waits := [], result := Except.ok response }
      | Except.error e =>
          if isRateLimit e ∧ attempt < maxRetries - 1 then
            let r := retryGo backend maxRetries (attempt + 1) fuel
            { calls := r.calls + 1, waits := (2 ^ attempt * 1000) :: r.waits,
              result := r.result }
          else
            { calls := 1, waits := [], result := Except.error (RetryFailure.api e) }

/-- Embeds generateContentWithRetry (src/unnamed/part_001 lines 55-87),
starting the loop at attempt zero. -/
def generateContentWithRetry (backend : Nat → Except ApiError String)
    (maxRetries : Nat) : RetryRes :=
  retryGo backend maxRetries 0 maxRetries

/-- Embeds the failure of the document-store read (the getDoc call throwing
when the store is unreachable). -/
structure StoreError where
  msg : String
deriving DecidableEq, Repr

/-- Embeds loadProject (src/unnamed/part_001 lines 29-41).  The fetch
argument is the outcome of the getDoc call: a present document, an absent
one, or a thrown store error.  The source wraps the read in try-catch,
returns the data when the snapshot exists, null when it does not, and in the
catch block logs the error and returns null; the returned promise therefore
never rejects, which the Except codomain records by always producing ok. -/
def loadProject (fetch : Except StoreError (Option ProjectState)) :
    Except StoreError (Option ProjectState) :=
  match fetch with
  | Except.ok (some data) => Except.ok (some data)
  | Except.ok none => Except.ok none
  | Except.error _ => Except.ok none

/-- Embeds the quiet period of the debounced autosave effect
(geminiService.ts line 994, 2000 ms). -/
def quietPeriod : Nat := 2000

/-- Embeds the debounced autosave effect (geminiService.ts lines 985-997)
as a timeline function.  The pending argument is the single scheduled
setTimeout: its firing time and the state its closure would save.  Each
mutation (a time-stamped new state) first lets a pending timer whose firing
time has already been reached fire, and otherwise cancels it (the effect
cleanup runs clearTimeout), then schedules a save of the new state one quiet
period later.  After the last mutation the remaining timer fires.  The
returned list is the sequence of persisted writes, in order. -/
def debounceRun (q : Nat) :
    Option (Nat × ProjectState) → List (Nat × ProjectState) → List ProjectState
  | none, [] => []
  | some (_, pend), [] => [pend]
  | none, (t, s) :: rest => debounceRun q (some (t + q, s)) rest
  | some (d, pend), (t, s) :: rest =>
      (if d ≤ t then [pend] else []) ++ debounceRun q (some (t + q, s)) rest

/-- States that each mutation in the list arrives strictly less than q after
the previous one (the burst condition of the debounce claim). -/
def gapsLt (q : Nat) : List (Nat × ProjectState) → Bool
  | [] => true
  | [_] => true
  | (t, _) :: (t₂, s₂) :: rest => (t₂ < t + q) && gapsLt q ((t₂, s₂) :: rest)

/-- Lists the 64 characters of the standard base64 alphabet used by the
browser when readAsDataURL encodes the file bytes. -/
def base64Alphabet : List Char :=
  ['A', 'B', 'C', 'D', 'E', 'F', 'G', 'H', 'I', 'J', 'K', 'L', 'M',
   'N', 'O', 'P', 'Q', 'R', 'S', 'T', 'U', 'V', 'W', 'X', 'Y', 'Z',
   'a', 'b', 'c', 'd', 'e', 'f', 'g', 'h', 'i', 'j', 'k', 'l', 'm',
   'n', 'o', 'p', 'q', 'r', 's', 't', 'u', 'v', 'w', 'x', 'y', 'z',
   '0', '1', '2', '3', '4', '5', '6', '7', '8', '9', '+', '/']

/-- Maps a 6-bit group to its base64 alphabet character. -/
def b64char (n : Nat) : Char :=
  base64Alphabet.getD n 'A'

/-- Encodes a byte list in standard base64 with padding, the encoding that
readAsDataURL applies to the file bytes after the data-URL header. -/
def base64Encode : List Nat → List Char
  | [] => []
  | [b₀] =>
      [b64char (b₀ / 4), b64char (b₀ % 4 * 16), '=', '=']
  | [b₀, b₁] =>
      [b64char (b₀ / 4), b64char (b₀ % 4 * 16 + b₁ / 16),
       b64char (b₁ % 16 * 4), '=']
  | b₀ :: b₁ :: b₂ :: rest =>
      b64char (b₀ / 4) :: b64char (b₀ % 4 * 16 + b₁ / 16) ::
      b64char (b₁ % 16 * 4 + b₂ / 64) :: b64char (b₂ % 64) ::
      base64Encode rest

/-- Embeds the JS String.split on a separator character, as used by
result.split at geminiService.ts line 1011. -/
def splitOnChar (sep : Char) : List Char → List (List Char)
  | [] => [[]]
  | c :: rest =>
      if c = sep then [] :: splitOnChar sep rest
      else
        match splitOnChar sep rest with
        | [] => [[c]]
        | h :: t => (c :: h) :: t

/-- Embeds an uploaded file at the file-input boundary: display name,
declared media type, underlying bytes (consumed by readAsDataURL), the text
decoding that file.text would produce, and whether the byte stream can be
read to completion. -/
structure FileModel where
  name : String
  type : List Char
  bytes : List Nat
  textContent : List Char
  readOk : Bool
deriving DecidableEq, Repr

/-- Computes the data URL produced by a successful readAsDataURL call: the
header with the file media type, then the base64 payload. -/
def dataUrlOf (f : FileModel) : List Char :=
  "data:".toList ++ f.type ++ ";base64,".toList ++ base64Encode f.bytes

/-- Describes how the promise returned by addResearch settles: resolved with
the updated provider state, rejected with a read error, or never settled. -/
inductive IngestOutcome where
  | ok (s : ProjectState)
  | readError
  | pending
deriving DecidableEq, Repr

/-- Embeds addResearch (geminiService.ts lines 999-1032).  The nid argument
stands for the Math.random document identifier.  For media type
application/pdf the content is the readAsDataURL result split on the comma,
element one (the base64 payload after the data-URL header); the inner
promise resolves or rejects only inside the onload callback, and the browser
fires onload only when the read succeeds, so a failed read leaves the
promise pending forever.  Every other media type is read with file.text,
whose rejection on a failed read propagates out of addResearch; an empty
declared media type defaults to text/plain.  On success the document is
appended to the research list. -/
def addResearch (nid : String) (f : FileModel) (s : ProjectState) : IngestOutcome :=
  if f.type = "application/pdf".toList then
    if f.readOk then
      IngestOutcome.ok
        { s with research := s.research ++
            [{ id := nid, name := f.name,
               content := (splitOnChar ',' (dataUrlOf f)).getD 1 [],
               mimeType := f.type, source := DocSource.upload }] }
    else IngestOutcome.pending
  else
    if f.readOk then
      IngestOutcome.ok
        { s with research := s.research ++
            [{ id := nid, name := f.name, content := f.textContent,
               mimeType := if f.type = [] then "text/plain".toList else f.type,
               source := DocSource.upload }] }
    else IngestOutcome.readError

/-- Follows the spec words, for comparison with the source behaviour: media
types that indicate a binary format (the spec gives PDF as an example; PNG
and JPEG images, ZIP archives and raw octet streams are likewise binary
formats). -/
def specBinaryTypes : List (List Char) :=
  ["application/pdf".toList, "image/png".toList, "image/jpeg".toList,
   "application/zip".toList, "application/octet-stream".toList]

/-- Follows the spec words: whether a declared media type indicates a binary
format. -/
def specIsBinary (mt : List Char) : Bool :=
  specBinaryTypes.contains mt

/-- Enumerates the exposed mutation operations of the provider that act on
the project state: updateIdea, addResearch (applied only when its promise
resolves with a new state), generateArtifact with a scripted backend, and
resetProject with the confirm-dialog answer. -/
inductive Op where
  | updateIdea (text : String)
  | addResearch (nid : String) (f : FileModel)
  | generateArtifact (backend : BackendCall → Except GenError String) (step : ProjectStep)
  | resetProject (confirmed : Bool)

/-- Applies one exposed mutation operation to a project state, as the
provider does: a failed or pending ingest leaves the state unchanged, and an
unconfirmed reset is a no-op. -/
def applyOp (s : ProjectState) : Op → ProjectState
  | Op.updateIdea text => updateIdea text s
  | Op.addResearch nid f =>
      match addResearch nid f s with
      | IngestOutcome.ok s₂ => s₂
      | _ => s
  | Op.generateArtifact backend step => (generateArtifact backend step s).finalState
  | Op.resetProject confirmed =>
      if confirmed then resetProjectState s else s

/-- Fixture: a rate-limit error as the backend raises it (429 in message and
status). -/
def e429 : ApiError := { message := "429 Too Many Requests".toList, status := some 429, code := none }

/-- Fixture: a service-unavailable error (503 in message, status and code,
no 429 signal anywhere). -/
def e503 : ApiError := { message := "503 Service Unavailable".toList, status := some 503, code := some 503 }

/-- Fixture: a scripted backend failing with a rate-limit error on the first
two calls and succeeding on the third. -/
def scripted429 : Nat → Except ApiError String :=
  fun n => if n < 2 then Except.error e429 else Except.ok "done"

/-- Fixture: a backend failing with a service-unavailable error on every
call. -/
def always503 : Nat → Except ApiError String := fun _ => Except.error e503

/-- Fixture: a backend failing with a rate-limit error on every call. -/
def always429 : Nat → Except ApiError String := fun _ => Except.error e429

/-- Fixture: a generation backend whose every call succeeds. -/
def bOk : BackendCall → Except GenError String := fun _ => Except.ok "generated"

/-- Fixture: a generation backend whose every call fails. -/
def bErr : BackendCall → Except GenError String :=
  fun _ => Except.error { msg := "auth failure" }

/-- Fixture: a state with a non-empty PRD output slot. -/
def sPRD : ProjectState := { initialState with prdOutput := "PRD text" }

/-- Fixture: a state after one idea-input keystroke. -/
def sIdeaX : ProjectState := { initialState with ideaInput := "x" }

/-- Fixture: a two-mutation burst, one second apart. -/
def muts0 : List (Nat × ProjectState) := [(0, initialState), (1000, sIdeaX)]

/-- Fixture: a readable PDF upload with three content bytes. -/
def fPdf : FileModel :=
  { name := "r.pdf", type := "application/pdf".toList, bytes := [1, 2, 3],
    textContent := [], readOk := true }

/-- Fixture: a readable PNG upload, one zero byte, decoded by file.text as a
single NUL character. -/
def fPng : FileModel :=
  { name := "shot.png", type := "image/png".toList, bytes := [0],
    textContent := [Char.ofNat 0], readOk := true }

/-- Fixture: a PDF upload whose byte stream cannot be read to completion. -/
def fBadPdf : FileModel :=
  { name := "broken.pdf", type := "application/pdf".toList, bytes := [],
    textContent := [], readOk := false }

/-- Fixture: a text upload whose byte stream cannot be read to completion. -/
def fBadTxt : FileModel :=
  { name := "notes.txt", type := "text/plain".toList, bytes := [],
    textContent := [], readOk := false }

/-- Fixture: a store failure on project load. -/
def storeDown : StoreError := { msg := "store unreachable" }

/-- Helper: writing a stage output slot never touches the stage marker. -/
theorem writeSlot_currentStep (step : ProjectStep) (t : String) (s : ProjectState) :
    (writeSlot step t s).currentStep = s.currentStep := by
  cases step <;> rfl

/-- Helper: generateArtifact never touches the stage marker. -/
theorem generateArtifact_currentStep (backend : BackendCall → Except GenError String)
    (step : ProjectStep) (s : ProjectState) :
    (generateArtifact backend step s).finalState.currentStep = s.currentStep := by
  unfold generateArtifact
  cases hc : stageCall step s with
  | none => rfl
  | some c =>
      cases hb : backend c with
      | ok t => simp [hb, writeSlot_currentStep]
      | error e => simp [hb]

/-- Helper: a resolved ingest never touches the stage marker. -/
theorem addResearch_currentStep (nid : String) (f : FileModel)
    (s s₂ : ProjectState) (h : addResearch nid f s = IngestOutcome.ok s₂) :
    s₂.currentStep = s.currentStep := by
  unfold addResearch at h
  split at h <;> split at h <;>
    first
      | (injection h with h2; subst h2; rfl)
      | injection h

/-- Helper: every exposed mutation operation preserves the initial stage
marker. -/
theorem applyOp_currentStep (s : ProjectState) (op : Op)
    (h : s.currentStep = ProjectStep.IDEA) :
    (applyOp s op).currentStep = ProjectStep.IDEA := by
  cases op with
  | updateIdea t => simpa [applyOp, updateIdea] using h
  | addResearch nid f =>
      cases hr : addResearch nid f s with
      | ok s₂ =>
          simp only [applyOp, hr]
          rw [addResearch_currentStep nid f s s₂ hr]
          exact h
      | readError => simpa [applyOp, hr] using h
      | pending => simpa [applyOp, hr] using h
  | generateArtifact backend step =>
      simp only [applyOp]
      rw [generateArtifact_currentStep]
      exact h
  | resetProject confirmed =>
      cases confirmed with
      | true => rfl
      | false => simpa [applyOp] using h

/-- Helper: once a save is pending, a burst of mutations each arriving less
than the quiet period after the previous one cancels each pending save in
turn, and only the last state is written. -/
theorem debounce_aux (rest : List (Nat × ProjectState)) :
    ∀ (t : Nat) (s : ProjectState),
      gapsLt quietPeriod ((t, s) :: rest) = true →
      debounceRun quietPeriod (some (t + quietPeriod, s)) rest =
        [(((t, s) :: rest).getLast (List.cons_ne_nil _ _)).2] := by
  induction rest with
  | nil => intro t s _; rfl
  | cons hd rest ih =>
      obtain ⟨t₂, s₂⟩ := hd
      intro t s hg
      simp only [gapsLt, Bool.and_eq_true, decide_eq_true_eq] at hg
      have h1 : ¬ (t + quietPeriod ≤ t₂) := by omega
      simp only [debounceRun, if_neg h1, List.nil_append]
      rw [ih t₂ s₂ hg.2]
      simp [List.getLast_cons]

/-- Helper: no base64 alphabet character is a comma. -/
theorem b64char_ne_comma (n : Nat) : b64char n ≠ ',' := by
  unfold b64char
  by_cases hn : n < base64Alphabet.length
  · have hmem : base64Alphabet.getD n 'A' ∈ base64Alphabet := by
      rw [List.getD_eq_getElem base64Alphabet 'A' hn]
      exact List.getElem_mem hn
    intro heq
    rw [heq] at hmem
    exact absurd hmem (by decide)
  · rw [List.getD_eq_default base64Alphabet 'A' (by omega)]
    decide

/-- Helper: the base64 payload produced for the file bytes never contains a
comma, so the data-URL split keeps it intact. -/
theorem base64Encode_no_comma (bs : List Nat) : ',' ∉ base64Encode bs := by
  induction bs using base64Encode.induct with
  | case1 => simp [base64Encode]
  | case2 b₀ =>
      simp only [base64Encode, List.mem_cons, List.not_mem_nil, or_false]
      rintro (h | h | h | h) <;>
        first
          | exact b64char_ne_comma _ h.symm
          | exact absurd h (by decide)
  | case3 b₀ b₁ =>
      simp only [base64Encode, List.mem_cons, List.not_mem_nil, or_false]
      rintro (h | h | h | h) <;>
        first
          | exact b64char_ne_comma _ h.symm
          | exact absurd h (by decide)
  | case4 b₀ b₁ b₂ rest ih =>
      simp only [base64Encode, List.mem_cons]
      rintro (h | h | h | h | h) <;>
        first
          | exact b64char_ne_comma _ h.symm
          | exact ih h

/-- Helper: splitting a list free of the separator yields the list whole. -/
theorem splitOnChar_no_sep (sep : Char) (q : List Char) (h : sep ∉ q) :
    splitOnChar sep q = [q] := by
  induction q with
  | nil => rfl
  | cons c rest ih =>
      have hc : ¬ c = sep := fun e => h (by simp [e])
      have h2 : sep ∉ rest := fun m => h (List.mem_cons_of_mem _ m)
      simp [splitOnChar, hc, ih h2]

/-- Helper: splitting around the first separator occurrence separates the
prefix from the remainder. -/
theorem splitOnChar_append (sep : Char) (p q : List Char) (hp : sep ∉ p) :
    splitOnChar sep (p ++ sep :: q) = p :: splitOnChar sep q := by
  induction p with
  | nil => simp [splitOnChar]
  | cons c p ih =>
      have hc : ¬ c = sep := fun e => hp (by simp [e])
      have h2 : sep ∉ p := fun m => hp (List.mem_cons_of_mem _ m)
      simp only [List.cons_append, splitOnChar, if_neg hc, List.append_eq]
      rw [ih h2]

/-- Helper: for a PDF upload, element one of the comma-split data URL is
exactly the base64 encoding of the file bytes (the header is stripped). -/
theorem pdf_payload (f : FileModel) (h : f.type = "application/pdf".toList) :
    (splitOnChar ',' (dataUrlOf f)).getD 1 [] = base64Encode f.bytes := by
  have hpre : "data:".toList ++ ("application/pdf".toList ++ ";base64,".toList) =
      "data:application/pdf;base64".toList ++ [','] := by decide
  have hform : dataUrlOf f =
      "data:application/pdf;base64".toList ++ ',' :: base64Encode f.bytes := by
    calc dataUrlOf f
        = ("data:".toList ++ ("application/pdf".toList ++ ";base64,".toList))
            ++ base64Encode f.bytes := by
          simp [dataUrlOf, h, List.append_assoc]
      _ = ("data:application/pdf;base64".toList ++ [','])
            ++ base64Encode f.bytes := by rw [hpre]
      _ = "data:application/pdf;base64".toList ++ ',' :: base64Encode f.bytes := by
          simp [List.append_assoc]
  rw [hform, splitOnChar_append ',' _ _ (by decide),
    splitOnChar_no_sep ',' _ (base64Encode_no_comma f.bytes)]
  rfl

/-- Helper: on a backend that fails with the same rate-limit error on every
call, the retry loop consumes its whole fuel, one call per unit, and finally
rethrows that backend error. -/
theorem retryGo_always_err (backend : Nat → Except ApiError String) (e : ApiError)
    (he : isRateLimit e = true) (hb : ∀ n, backend n = Except.error e) (m : Nat) :
    ∀ fuel attempt, 1 ≤ fuel → attempt + fuel = m →
      (retryGo backend m attempt fuel).calls = fuel ∧
      (retryGo backend m attempt fuel).result = Except.error (RetryFailure.api e) := by
  intro fuel
  induction fuel with
  | zero => intro attempt h1 _; omega
  | succ k ih =>
      intro attempt h1 h2
      by_cases hlt : attempt < m - 1
      · have hk : 1 ≤ k := by omega
        have hcond : (isRateLimit e = true) ∧ attempt < m - 1 := ⟨he, hlt⟩
        have hrec := ih (attempt + 1) hk (by omega)
        simp only [retryGo, hb attempt, hcond, and_self, if_true, if_pos]
        constructor
        · simp [hrec.1]
        · simp [hrec.2]
      · have hk : k = 0 := by omega
        subst hk
        simp only [retryGo, hb attempt]
        rw [if_neg (by simp [hlt])]
        exact ⟨rfl, rfl⟩

/-- Helper: whenever a stage dispatches a backend call, the run makes
exactly that one call and propagates no error, whatever the backend does. -/
theorem generateArtifact_some_run (backend : BackendCall → Except GenError String)
    (step : ProjectStep) (s : ProjectState) (c : BackendCall)
    (hc : stageCall step s = some c) :
    (generateArtifact backend step s).thrown = none ∧
    (generateArtifact backend step s).calls.length = 1 := by
  cases hb : backend c <;> simp [generateArtifact, hc, hb]

/-- C1 (counterexample): at the initial state, whose PRD output slot is the
empty string, invoking the stage-advance operation for Planning performs the
backend generation call (with the empty PRD interpolated) and raises no
error at all, so no PrerequisiteMissingError is raised and a backend call is
made. -/
theorem c1_counterexample :
    (generateArtifact bOk ProjectStep.PLANNING initialState).calls =
      [BackendCall.generatePlan ""] ∧
    (generateArtifact bOk ProjectStep.PLANNING initialState).thrown = none :=
  ⟨rfl, rfl⟩

/-- C1 (amended): generateArtifact performs no prerequisite check: for every
stage with a declared prerequisite, invoking it while the prerequisite
output slot is empty still makes exactly one backend call and propagates no
error; prerequisite gating exists only in the UI, whose trigger buttons for
Planning, Design and Code are disabled whenever the prerequisite output is
empty (the PRD trigger is gated only on the in-progress flag). -/
theorem c1_no_prereq_check_only_ui_gate
    (backend : BackendCall → Except GenError String) (step : ProjectStep)
    (s : ProjectState)
    (hstep : step = ProjectStep.PRD ∨ step = ProjectStep.PLANNING ∨
      step = ProjectStep.DESIGN ∨ step = ProjectStep.CODE)
    (hempty : prereqOutput step s = "") :
    (generateArtifact backend step s).thrown = none ∧
    (generateArtifact backend step s).calls.length = 1 ∧
    (step ≠ ProjectStep.PRD → stageTriggerDisabled step s = true) := by
  rcases hstep with h | h | h | h <;> subst h <;>
    simp only [prereqOutput] at hempty
  · obtain ⟨h1, h2⟩ := generateArtifact_some_run backend ProjectStep.PRD s _ rfl
    exact ⟨h1, h2, fun hne => absurd rfl hne⟩
  · obtain ⟨h1, h2⟩ := generateArtifact_some_run backend ProjectStep.PLANNING s _ rfl
    exact ⟨h1, h2, fun _ => by simp [stageTriggerDisabled, hempty]⟩
  · obtain ⟨h1, h2⟩ := generateArtifact_some_run backend ProjectStep.DESIGN s _ rfl
    exact ⟨h1, h2, fun _ => by simp [stageTriggerDisabled, hempty]⟩
  · obtain ⟨h1, h2⟩ := generateArtifact_some_run backend ProjectStep.CODE s _ rfl
    exact ⟨h1, h2, fun _ => by simp [stageTriggerDisabled, hempty]⟩

/-- C1 (witness): the amended statement instantiated at the Planning stage
on the initial state. -/
theorem c1_witness :
    prereqOutput ProjectStep.PLANNING initialState = "" ∧
    (generateArtifact bOk ProjectStep.PLANNING initialState).thrown = none ∧
    (generateArtifact bOk ProjectStep.PLANNING initialState).calls.length = 1 ∧
    stageTriggerDisabled ProjectStep.PLANNING initialState = true := by
  have h := c1_no_prereq_check_only_ui_gate bOk ProjectStep.PLANNING initialState
    (Or.inr (Or.inl rfl)) rfl
  exact ⟨rfl, h.1, h.2.1, h.2.2 (by decide)⟩

/-- C2 (counterexample): when the backend call of the Planning stage fails,
generateArtifact catches the error (showing the alert) and the promise
resolves normally: the error is not propagated to the caller, refuting the
claim that every backend error propagates untouched. -/
theorem c2_counterexample :
    (generateArtifact bErr ProjectStep.PLANNING sPRD).thrown = none ∧
    (generateArtifact bErr ProjectStep.PLANNING sPRD).alerted = true ∧
    (generateArtifact bErr ProjectStep.PLANNING sPRD).finalState =
      { sPRD with isGenerating := false } :=
  ⟨rfl, rfl, rfl⟩

/-- C2 (amended): for every stage and every backend error, generateArtifact
clears the in-progress flag and leaves every other field of the state,
including all output slots, unchanged (writes are all-or-nothing), but it
catches the error and shows an alert instead of propagating it: the awaited
promise resolves with no error. -/
theorem c2_error_clears_flag_no_partial_writes
    (backend : BackendCall → Except GenError String) (step : ProjectStep)
    (s : ProjectState) (c : BackendCall) (e : GenError)
    (hc : stageCall step s = some c) (hb : backend c = Except.error e) :
    generateArtifact backend step s =
      { calls := [c], finalState := { s with isGenerating := false },
        thrown := none, alerted := true } := by
  simp [generateArtifact, hc, hb]

/-- C2 (witness): the amended statement instantiated at the Planning stage
with a failing backend on a state holding a PRD. -/
theorem c2_witness :
    stageCall ProjectStep.PLANNING sPRD = some (BackendCall.generatePlan "PRD text") ∧
    bErr (BackendCall.generatePlan "PRD text") = Except.error { msg := "auth failure" } ∧
    generateArtifact bErr ProjectStep.PLANNING sPRD =
      { calls := [BackendCall.generatePlan "PRD text"],
        finalState := { sPRD with isGenerating := false },
        thrown := none, alerted := true } := by
  refine ⟨rfl, rfl, ?_⟩
  exact c2_error_clears_flag_no_partial_writes bErr ProjectStep.PLANNING sPRD
    (BackendCall.generatePlan "PRD text") { msg := "auth failure" } rfl rfl

/-- C3: evaluated on a backend failing with rate-limit twice then
succeeding, the retry wrapper makes exactly 3 calls, waits 1000 ms then
2000 ms between them, and returns the third result, as the claim states;
but evaluated on a backend failing with a service-unavailable signal (503,
no 429 anywhere), it makes exactly one call and rethrows immediately: the
classification at src/unnamed/part_001 line 74 tests only 429, although the
comment above it names 503 too, so service-unavailable is never retried. -/
theorem c3_retry_rate_limit_only :
    generateContentWithRetry scripted429 3 =
      { calls := 3, waits := [1000, 2000], result := Except.ok "done" } ∧
    generateContentWithRetry always503 3 =
      { calls := 1, waits := [], result := Except.error (RetryFailure.api e503) } :=
  ⟨rfl, rfl⟩

/-- C4 (counterexample): on a backend failing with rate-limit on every call,
the wrapper makes exactly 3 calls but then rethrows the backend rate-limit
error itself, not the distinct terminal Max-retries-exceeded error the claim
requires. -/
theorem c4_counterexample :
    generateContentWithRetry always429 3 =
      { calls := 3, waits := [1000, 2000],
        result := Except.error (RetryFailure.api e429) } ∧
    (generateContentWithRetry always429 3).result ≠
      Except.error RetryFailure.maxRetriesExceeded := by
  refine ⟨rfl, ?_⟩
  intro h
  rw [show (generateContentWithRetry always429 3).result =
    Except.error (RetryFailure.api e429) from rfl] at h
  exact absurd (Except.error.inj h) (by decide)

/-- C4 (amended): for every rate-limit error and every backend failing with
it on every call, the wrapper with a positive maxRetries budget makes
exactly maxRetries calls and then rethrows that backend rate-limit error
(the distinct Max-retries-exceeded throw after the loop is unreachable once
at least one call is made). -/
theorem c4_exhaustion_rethrows_backend_error
    (backend : Nat → Except ApiError String) (e : ApiError)
    (he : isRateLimit e = true) (hb : ∀ n, backend n = Except.error e)
    (m : Nat) (hm : 1 ≤ m) :
    (generateContentWithRetry backend m).calls = m ∧
    (generateContentWithRetry backend m).result =
      Except.error (RetryFailure.api e) := by
  have h := retryGo_always_err backend e he hb m m 0 hm (by omega)
  exact ⟨h.1, h.2⟩

/-- C4 (witness): the amended statement instantiated at the always-failing
rate-limited backend with the default budget of 3. -/
theorem c4_witness :
    isRateLimit e429 = true ∧ (1 : Nat) ≤ 3 ∧
    (generateContentWithRetry always429 3).calls = 3 ∧
    (generateContentWithRetry always429 3).result =
      Except.error (RetryFailure.api e429) := by
  have h := c4_exhaustion_rethrows_backend_error always429 e429 (by decide)
    (fun _ => rfl) 3 (by decide)
  exact ⟨by decide, by decide, h.1, h.2⟩

/-- C5: for every non-empty burst of mutations in which each mutation
arrives strictly less than the quiet period after the previous one, the
debounced autosave performs exactly one persisted write, containing the
state from the last mutation only: every earlier pending save is cancelled
and rescheduled, and no intermediate state is ever written. -/
theorem c5_debounce_single_write (muts : List (Nat × ProjectState))
    (hne : muts ≠ []) (hg : gapsLt quietPeriod muts = true) :
    debounceRun quietPeriod none muts = [(muts.getLast hne).2] := by
  cases muts with
  | nil => exact absurd rfl hne
  | cons hd rest =>
      obtain ⟨t, s⟩ := hd
      have hstep : debounceRun quietPeriod none ((t, s) :: rest) =
          debounceRun quietPeriod (some (t + quietPeriod, s)) rest := rfl
      rw [hstep, debounce_aux rest t s hg]

/-- C5 (witness): a burst of two mutations one second apart produces exactly
one write, holding the state of the second mutation. -/
theorem c5_witness :
    muts0 ≠ [] ∧ gapsLt quietPeriod muts0 = true ∧
    debounceRun quietPeriod none muts0 = [sIdeaX] := by
  refine ⟨by simp [muts0], by decide, ?_⟩
  have h := c5_debounce_single_write muts0 (by simp [muts0]) (by decide)
  exact h.trans (by decide)

/-- C6 (counterexample): a PNG upload carries a binary media type, yet
addResearch ingests it through the text path: the resulting document content
is the raw text decoding of the file, not the base64 encoding of its bytes,
so content encoding is not binary-base64 for every binary media type. -/
theorem c6_counterexample :
    specIsBinary fPng.type = true ∧
    addResearch "doc2" fPng initialState = IngestOutcome.ok
      { initialState with research :=
          [{ id := "doc2", name := "shot.png", content := [Char.ofNat 0],
             mimeType := "image/png".toList, source := DocSource.upload }] } ∧
    [Char.ofNat 0] ≠ base64Encode fPng.bytes := by
  refine ⟨by decide, by decide, by decide⟩

/-- C6 (amended): the content encoding of an ingested document is fully
determined by the declared media type, with exactly application/pdf treated
as binary: a PDF yields the base64 encoding of the file bytes with the
data-URI header stripped, every other media type yields the raw text
decoding, and an empty declared media type is reclassified as text/plain. -/
theorem c6_encoding_determined_by_media_type (nid : String) (f : FileModel)
    (s : ProjectState) (h : f.readOk = true) :
    addResearch nid f s = IngestOutcome.ok
      { s with research := s.research ++
          [{ id := nid, name := f.name,
             content := if f.type = "application/pdf".toList
               then base64Encode f.bytes else f.textContent,
             mimeType := if f.type = [] then "text/plain".toList else f.type,
             source := DocSource.upload }] } := by
  by_cases ht : f.type = "application/pdf".toList
  · have hnonempty : ¬ f.type = [] := by rw [ht]; decide
    unfold addResearch
    rw [if_pos ht, if_pos h, if_pos ht, if_neg hnonempty, pdf_payload f ht]
  · unfold addResearch
    rw [if_neg ht, if_pos h, if_neg ht]

/-- C6 (witness): the amended statement instantiated at a readable
three-byte PDF upload; the stored content is the base64 payload AQID. -/
theorem c6_witness :
    fPdf.readOk = true ∧
    addResearch "doc1" fPdf initialState = IngestOutcome.ok
      { initialState with research :=
          [{ id := "doc1", name := "r.pdf", content := "AQID".toList,
             mimeType := "application/pdf".toList, source := DocSource.upload }] } := by
  refine ⟨rfl, ?_⟩
  exact (c6_encoding_determined_by_media_type "doc1" fPdf initialState rfl).trans
    (by decide)

/-- C7: evaluated at a PDF upload whose byte stream cannot be read to
completion, addResearch never settles: the inner promise resolves or rejects
only inside the onload callback, which the browser never fires for a failed
read (no onerror handler is installed), so no IngestError reaches the caller
and no document is appended — the operation hangs instead of terminating
with the error, contrary to the claim; a failed text read, by contrast, does
reject. -/
theorem c7_pdf_read_failure_hangs :
    addResearch "doc3" fBadPdf initialState = IngestOutcome.pending ∧
    addResearch "doc4" fBadTxt initialState = IngestOutcome.readError :=
  ⟨rfl, rfl⟩

/-- C8 (counterexample): when the underlying store read fails, loadProject
returns the not-found sentinel instead of surfacing the error, refuting the
claim that only absence yields the sentinel. -/
theorem c8_counterexample :
    loadProject (Except.error storeDown) = Except.ok none := rfl

/-- C8 (amended): loadProject never surfaces an error: it returns the
not-found sentinel exactly when the project is absent or when the underlying
fetch fails (the catch block logs the error and maps it to the sentinel),
and returns the stored state otherwise. -/
theorem c8_load_never_errors :
    ∀ fetch : Except StoreError (Option ProjectState),
      ∃ r, loadProject fetch = Except.ok r ∧
        (r = none ↔ fetch = Except.ok none ∨ ∃ e, fetch = Except.error e) := by
  intro fetch
  rcases fetch with e | d
  · exact ⟨none, rfl, by simp⟩
  · rcases d with _ | d
    · exact ⟨none, rfl, by simp⟩
    · refine ⟨some d, rfl, by simp⟩

/-- C9: resetting a project is idempotent — resetting twice yields the same
state as resetting once — and the reset state has all five stage output
slots empty, an empty research list and an empty idea input, while the
project title and the current project identifier are both kept. -/
theorem c9_reset_idempotent_clears_keeps_identity (p : ProviderState) :
    resetProject true (resetProject true p) = resetProject true p ∧
    (resetProject true p).proj.synthesizedIdea = "" ∧
    (resetProject true p).proj.prdOutput = "" ∧
    (resetProject true p).proj.roadmapOutput = "" ∧
    (resetProject true p).proj.designSystemOutput = "" ∧
    (resetProject true p).proj.codePromptOutput = "" ∧
    (resetProject true p).proj.research = [] ∧
    (resetProject true p).proj.ideaInput = "" ∧
    (resetProject true p).proj.title = p.proj.title ∧
    (resetProject true p).currentProjectId = p.currentProjectId :=
  ⟨rfl, rfl, rfl, rfl, rfl, rfl, rfl, rfl, rfl, rfl⟩

/-- C10: in every state reachable from the initial project state by the
exposed mutation operations — updateIdea, addResearch, generateArtifact for
any stage under any backend, and resetProject — the current-stage marker
still equals its initial value IDEA: no operation ever modifies it. -/
theorem c10_currentStep_always_idea (ops : List Op) :
    (List.foldl applyOp initialState ops).currentStep = ProjectStep.IDEA := by
  have aux : ∀ (l : List Op) (s : ProjectState),
      s.currentStep = ProjectStep.IDEA →
      (List.foldl applyOp s l).currentStep = ProjectStep.IDEA := by
    intro l
    induction l with
    | nil => exact fun s h => h
    | cons op rest ih =>
        intro s h
        rw [List.foldl_cons]
        exact ih _ (applyOp_currentStep s op h)
  exact aux ops initialState rfl

end Forge
